import Mathlib

/-!
# munleko: the ImGui GLFW/OpenGL3 backend shim

A verification development for `src/munleko/client/gui/c/imgui_backend.cpp`.

The file defines four C-linkage entry points, each a straight-line sequence of
calls into the Dear ImGui library and its GLFW and OpenGL3 backends.  The
library itself is not part of the repository, so it is taken as a parameter:
an `ImGuiLib σ` gives, for an arbitrary library state `σ`, the effect and the
return value of every library function the shim calls.  A `World σ` pairs the
library state with the chronological trace of the library calls issued so far.
Each entry point is a state transformer on the world, written in the order of
the statements of the source.
-/

namespace Munleko

/-- A C pointer, as an address; `0` is `NULL`. -/
abbrev Ptr := Nat

/-- The null pointer. -/
abbrev NULL : Ptr := 0

/-- A call into the wrapped library, with the arguments passed.  The first
eight constructors are the functions the source file calls; `ImGui_NewFrame`
and `ImGui_Render` are the library's own frame functions (declared in
`imgui.h`), which the shim leaves to its caller.  The GLSL version string of
`ImGui_ImplOpenGL3_Init` is `none` for a null `const char*`. -/
inductive LibCall where
  | ImGui_ImplGlfw_InitForOpenGL (window : Ptr) (install_callbacks : Bool)
  | ImGui_ImplOpenGL3_Init (glsl_version : Option String)
  | ImGui_ImplOpenGL3_Shutdown
  | ImGui_ImplGlfw_Shutdown
  | ImGui_ImplGlfw_NewFrame
  | ImGui_ImplOpenGL3_NewFrame
  | ImGui_GetDrawData
  | ImGui_ImplOpenGL3_RenderDrawData (draw_data : Ptr)
  | ImGui_NewFrame
  | ImGui_Render
  deriving DecidableEq, Repr

/-- The wrapped library over a state `σ`: for each function the shim calls,
the state change it makes and the value it returns.  The two backend init
functions return a `bool` (success), `GetDrawData` returns an `ImDrawData*`,
the others return `void`. -/
structure ImGuiLib (σ : Type) where
  ImGui_ImplGlfw_InitForOpenGL : Ptr → Bool → σ → Bool × σ
  ImGui_ImplOpenGL3_Init : Option String → σ → Bool × σ
  ImGui_ImplOpenGL3_Shutdown : σ → σ
  ImGui_ImplGlfw_Shutdown : σ → σ
  ImGui_ImplGlfw_NewFrame : σ → σ
  ImGui_ImplOpenGL3_NewFrame : σ → σ
  GetDrawData : σ → Ptr × σ
  ImGui_ImplOpenGL3_RenderDrawData : Ptr → σ → σ

/-- The world the shim runs in: the library's state and the calls made into
the library so far, oldest first. -/
structure World (σ : Type) where
  lib : σ
  trace : List LibCall

/-- Record a library call at the end of the trace. -/
def World.log {σ : Type} (s : World σ) (c : LibCall) (lib' : σ) : World σ :=
  { lib := lib', trace := s.trace ++ [c] }

section Calls
variable {σ : Type} (L : ImGuiLib σ)

/-- Calling `ImGui_ImplGlfw_InitForOpenGL(window, install_callbacks)`. -/
def call_ImGui_ImplGlfw_InitForOpenGL (window : Ptr) (install_callbacks : Bool) :
    StateM (World σ) Bool := fun s =>
  let r := L.ImGui_ImplGlfw_InitForOpenGL window install_callbacks s.lib
  (r.1, s.log (.ImGui_ImplGlfw_InitForOpenGL window install_callbacks) r.2)

/-- Calling `ImGui_ImplOpenGL3_Init(glsl_version)`. -/
def call_ImGui_ImplOpenGL3_Init (glsl_version : Option String) :
    StateM (World σ) Bool := fun s =>
  let r := L.ImGui_ImplOpenGL3_Init glsl_version s.lib
  (r.1, s.log (.ImGui_ImplOpenGL3_Init glsl_version) r.2)

/-- Calling `ImGui_ImplOpenGL3_Shutdown()`. -/
def call_ImGui_ImplOpenGL3_Shutdown : StateM (World σ) Unit := fun s =>
  ((), s.log .ImGui_ImplOpenGL3_Shutdown (L.ImGui_ImplOpenGL3_Shutdown s.lib))

/-- Calling `ImGui_ImplGlfw_Shutdown()`. -/
def call_ImGui_ImplGlfw_Shutdown : StateM (World σ) Unit := fun s =>
  ((), s.log .ImGui_ImplGlfw_Shutdown (L.ImGui_ImplGlfw_Shutdown s.lib))

/-- Calling `ImGui_ImplGlfw_NewFrame()`. -/
def call_ImGui_ImplGlfw_NewFrame : StateM (World σ) Unit := fun s =>
  ((), s.log .ImGui_ImplGlfw_NewFrame (L.ImGui_ImplGlfw_NewFrame s.lib))

/-- Calling `ImGui_ImplOpenGL3_NewFrame()`. -/
def call_ImGui_ImplOpenGL3_NewFrame : StateM (World σ) Unit := fun s =>
  ((), s.log .ImGui_ImplOpenGL3_NewFrame (L.ImGui_ImplOpenGL3_NewFrame s.lib))

/-- Calling `ImGui::GetDrawData()`. -/
def call_ImGui_GetDrawData : StateM (World σ) Ptr := fun s =>
  let r := L.GetDrawData s.lib
  (r.1, s.log .ImGui_GetDrawData r.2)

/-- Calling `ImGui_ImplOpenGL3_RenderDrawData(draw_data)`. -/
def call_ImGui_ImplOpenGL3_RenderDrawData (draw_data : Ptr) :
    StateM (World σ) Unit := fun s =>
  ((), s.log (.ImGui_ImplOpenGL3_RenderDrawData draw_data)
    (L.ImGui_ImplOpenGL3_RenderDrawData draw_data s.lib))

/-! ## The four entry points (imgui_backend.cpp, lines 7-24) -/

/-- `void imgui_backend_init(GLFWwindow *window)`: both results are dropped;
the literal `1` converts to `true`, `NULL` is the null version string. -/
def imgui_backend_init (window : Ptr) : StateM (World σ) Unit := do
  let _ ← call_ImGui_ImplGlfw_InitForOpenGL L window true
  let _ ← call_ImGui_ImplOpenGL3_Init L none
  pure ()

/-- `void imgui_backend_deinit()`. -/
def imgui_backend_deinit : StateM (World σ) Unit := do
  call_ImGui_ImplOpenGL3_Shutdown L
  call_ImGui_ImplGlfw_Shutdown L

/-- `void imgui_backend_newframe()`. -/
def imgui_backend_newframe : StateM (World σ) Unit := do
  call_ImGui_ImplGlfw_NewFrame L
  call_ImGui_ImplOpenGL3_NewFrame L

/-- `void imgui_backend_render()`: the argument is evaluated first, then the
renderer is called with it. -/
def imgui_backend_render : StateM (World σ) Unit := do
  let draw_data ← call_ImGui_GetDrawData L
  call_ImGui_ImplOpenGL3_RenderDrawData L draw_data

end Calls

/-- The calls an action adds to the trace when run from world `s`. -/
def issued {σ α : Type} (m : StateM (World σ) α) (s : World σ) : List LibCall :=
  (m.run s).2.trace.drop s.trace.length

/-- The value a caller gets back from an action together with the library
calls the action made: what is visible at the C boundary. -/
def observed {σ α : Type} (m : StateM (World σ) α) (s : World σ) : α × List LibCall :=
  ((m.run s).1, issued m s)

/-- The two `bool` results the library hands back during
`imgui_backend_init(window)` run from world `s`: the GLFW init runs on the
current library state, the OpenGL3 init on the state the GLFW init leaves. -/
def initResults {σ : Type} (L : ImGuiLib σ) (window : Ptr) (s : World σ) : Bool × Bool :=
  let r₁ := L.ImGui_ImplGlfw_InitForOpenGL window true s.lib
  let r₂ := L.ImGui_ImplOpenGL3_Init none r₁.2
  (r₁.1, r₂.1)

/-! ## Call sequences made by a client -/

/-- One call to an entry point of the shim. -/
inductive Entry where
  | init (window : Ptr)
  | deinit
  | newframe
  | render
  deriving DecidableEq, Repr

/-- Run one entry point. -/
def callEntry {σ : Type} (L : ImGuiLib σ) : Entry → StateM (World σ) Unit
  | .init window => imgui_backend_init L window
  | .deinit => imgui_backend_deinit L
  | .newframe => imgui_backend_newframe L
  | .render => imgui_backend_render L

/-- Run a finite sequence of entry-point calls, first to last. -/
def runCalls {σ : Type} (L : ImGuiLib σ) : List Entry → StateM (World σ) Unit
  | [] => pure ()
  | e :: es => do
    callEntry L e
    runCalls L es

/-- The per-frame part of a session: `n` repetitions of newframe, render. -/
def frames : Nat → List Entry
  | 0 => []
  | n + 1 => .newframe :: .render :: frames n

/-- The assumed call sequence `init → {newframe → render}* → deinit` with `n`
frames. -/
def session (window : Ptr) (n : Nat) : List Entry :=
  .init window :: (frames n ++ [.deinit])

/-! ## Classifying library calls -/

/-- The two backends the shim binds. -/
inductive Backend where
  | Glfw
  | OpenGL3
  deriving DecidableEq, Repr

/-- The backend a library call belongs to; `none` for calls into ImGui
itself. -/
def LibCall.backend : LibCall → Option Backend
  | .ImGui_ImplGlfw_InitForOpenGL _ _ => some .Glfw
  | .ImGui_ImplGlfw_Shutdown => some .Glfw
  | .ImGui_ImplGlfw_NewFrame => some .Glfw
  | .ImGui_ImplOpenGL3_Init _ => some .OpenGL3
  | .ImGui_ImplOpenGL3_Shutdown => some .OpenGL3
  | .ImGui_ImplOpenGL3_NewFrame => some .OpenGL3
  | .ImGui_ImplOpenGL3_RenderDrawData _ => some .OpenGL3
  | .ImGui_GetDrawData => none
  | .ImGui_NewFrame => none
  | .ImGui_Render => none

/-- A backend init call. -/
def LibCall.isBackendInit : LibCall → Bool
  | .ImGui_ImplGlfw_InitForOpenGL _ _ => true
  | .ImGui_ImplOpenGL3_Init _ => true
  | _ => false

/-- A backend shutdown call. -/
def LibCall.isShutdown : LibCall → Bool
  | .ImGui_ImplOpenGL3_Shutdown => true
  | .ImGui_ImplGlfw_Shutdown => true
  | _ => false

/-- A backend NewFrame call. -/
def LibCall.isBackendNewFrame : LibCall → Bool
  | .ImGui_ImplGlfw_NewFrame => true
  | .ImGui_ImplOpenGL3_NewFrame => true
  | _ => false

/-- A RenderDrawData call. -/
def LibCall.isRenderDrawData : LibCall → Bool
  | .ImGui_ImplOpenGL3_RenderDrawData _ => true
  | _ => false

/-- A library call without the one argument that is not fixed by the source
text: the draw-data pointer, which is whatever `GetDrawData` returned. -/
inductive CallShape where
  | ImGui_ImplGlfw_InitForOpenGL (window : Ptr) (install_callbacks : Bool)
  | ImGui_ImplOpenGL3_Init (glsl_version : Option String)
  | ImGui_ImplOpenGL3_Shutdown
  | ImGui_ImplGlfw_Shutdown
  | ImGui_ImplGlfw_NewFrame
  | ImGui_ImplOpenGL3_NewFrame
  | ImGui_GetDrawData
  | ImGui_ImplOpenGL3_RenderDrawData
  | ImGui_NewFrame
  | ImGui_Render
  deriving DecidableEq, Repr

/-- Forget the draw-data pointer of a call. -/
def LibCall.shape : LibCall → CallShape
  | .ImGui_ImplGlfw_InitForOpenGL w c => .ImGui_ImplGlfw_InitForOpenGL w c
  | .ImGui_ImplOpenGL3_Init v => .ImGui_ImplOpenGL3_Init v
  | .ImGui_ImplOpenGL3_Shutdown => .ImGui_ImplOpenGL3_Shutdown
  | .ImGui_ImplGlfw_Shutdown => .ImGui_ImplGlfw_Shutdown
  | .ImGui_ImplGlfw_NewFrame => .ImGui_ImplGlfw_NewFrame
  | .ImGui_ImplOpenGL3_NewFrame => .ImGui_ImplOpenGL3_NewFrame
  | .ImGui_GetDrawData => .ImGui_GetDrawData
  | .ImGui_ImplOpenGL3_RenderDrawData _ => .ImGui_ImplOpenGL3_RenderDrawData
  | .ImGui_NewFrame => .ImGui_NewFrame
  | .ImGui_Render => .ImGui_Render

/-- The fixed trace of an entry point, read off the statements of its body. -/
def fixedTrace : Entry → List CallShape
  | .init window => [.ImGui_ImplGlfw_InitForOpenGL window true, .ImGui_ImplOpenGL3_Init none]
  | .deinit => [.ImGui_ImplOpenGL3_Shutdown, .ImGui_ImplGlfw_Shutdown]
  | .newframe => [.ImGui_ImplGlfw_NewFrame, .ImGui_ImplOpenGL3_NewFrame]
  | .render => [.ImGui_GetDrawData, .ImGui_ImplOpenGL3_RenderDrawData]

/-- The fixed traces of a sequence of entry-point calls, concatenated in call
order. -/
def concatTraces : List Entry → List CallShape
  | [] => []
  | e :: es => fixedTrace e ++ concatTraces es

/-- The four library calls of one frame, the renderer receiving `d`. -/
def frameBlock (d : Ptr) : List LibCall :=
  [.ImGui_ImplGlfw_NewFrame, .ImGui_ImplOpenGL3_NewFrame, .ImGui_GetDrawData,
    .ImGui_ImplOpenGL3_RenderDrawData d]

/-- The frame blocks for a list of draw-data pointers, in order. -/
def frameBlocks : List Ptr → List LibCall
  | [] => []
  | d :: ds => frameBlock d ++ frameBlocks ds

/-- The library calls of a whole session whose frames rendered `ds`. -/
def sessionTrace (w : Ptr) (ds : List Ptr) : List LibCall :=
  LibCall.ImGui_ImplGlfw_InitForOpenGL w true :: LibCall.ImGui_ImplOpenGL3_Init none ::
    (frameBlocks ds ++ [LibCall.ImGui_ImplOpenGL3_Shutdown, LibCall.ImGui_ImplGlfw_Shutdown])

/-- The library calls issued by a session with `n` frames run from `s`. -/
def sessionCalls {σ : Type} (L : ImGuiLib σ) (w : Ptr) (n : Nat) (s : World σ) :
    List LibCall :=
  issued (runCalls L (session w n)) s

/-- In a trace, every RenderDrawData call comes right after a GLFW NewFrame, an
OpenGL3 NewFrame and a GetDrawData, in this order. -/
def RenderPreceded (t : List LibCall) : Prop :=
  ∀ (pre : List LibCall) (d : Ptr) (post : List LibCall),
    t = pre ++ LibCall.ImGui_ImplOpenGL3_RenderDrawData d :: post →
    ∃ pre', pre = pre' ++ [LibCall.ImGui_ImplGlfw_NewFrame,
      LibCall.ImGui_ImplOpenGL3_NewFrame, LibCall.ImGui_GetDrawData]

/-! ## A small stand-in library

A library with just enough state to fail the way the real one can: the GLFW
backend refuses a null window, the OpenGL3 backend refuses to start without a
current GL context. -/

/-- State of the stand-in library. -/
structure DemoState where
  gl_context : Bool
  glfw_ready : Bool
  gl3_ready : Bool
  draw_data : Ptr
  deriving DecidableEq, Repr

/-- The stand-in library. -/
def demoLib : ImGuiLib DemoState where
  ImGui_ImplGlfw_InitForOpenGL := fun window _ s =>
    if window = NULL then (false, s) else (true, { s with glfw_ready := true })
  ImGui_ImplOpenGL3_Init := fun _ s =>
    if s.gl_context then (true, { s with gl3_ready := true }) else (false, s)
  ImGui_ImplOpenGL3_Shutdown := fun s => { s with gl3_ready := false }
  ImGui_ImplGlfw_Shutdown := fun s => { s with glfw_ready := false }
  ImGui_ImplGlfw_NewFrame := fun s => s
  ImGui_ImplOpenGL3_NewFrame := fun s => s
  GetDrawData := fun s => (s.draw_data, s)
  ImGui_ImplOpenGL3_RenderDrawData := fun _ s => s

/-- A fresh world with a current GL context. -/
def demoWorld : World DemoState :=
  { lib := { gl_context := true, glfw_ready := false, gl3_ready := false, draw_data := 64 }
    trace := [] }

/-- A fresh world in which no GL context is current. -/
def demoWorldNoGL : World DemoState :=
  { lib := { gl_context := false, glfw_ready := false, gl3_ready := false, draw_data := 64 }
    trace := [] }

/-! ## Helper lemmas -/

/-- Dropping a known prefix. -/
theorem drop_length_append (a b : List LibCall) : (a ++ b).drop a.length = b := by
  simp

/-- What `imgui_backend_init` leaves behind. -/
theorem init_run {σ : Type} (L : ImGuiLib σ) (w : Ptr) (s : World σ) :
    (imgui_backend_init L w).run s =
      ((), { lib := (L.ImGui_ImplOpenGL3_Init none
                      (L.ImGui_ImplGlfw_InitForOpenGL w true s.lib).2).2
             trace := s.trace ++ [.ImGui_ImplGlfw_InitForOpenGL w true,
                                  .ImGui_ImplOpenGL3_Init none] }) := by
  simp [imgui_backend_init, call_ImGui_ImplGlfw_InitForOpenGL, call_ImGui_ImplOpenGL3_Init,
    World.log, StateT.run, bind, StateT.bind, pure, StateT.pure]

/-- What `imgui_backend_deinit` leaves behind. -/
theorem deinit_run {σ : Type} (L : ImGuiLib σ) (s : World σ) :
    (imgui_backend_deinit L).run s =
      ((), { lib := L.ImGui_ImplGlfw_Shutdown (L.ImGui_ImplOpenGL3_Shutdown s.lib)
             trace := s.trace ++ [.ImGui_ImplOpenGL3_Shutdown, .ImGui_ImplGlfw_Shutdown] }) := by
  simp [imgui_backend_deinit, call_ImGui_ImplOpenGL3_Shutdown, call_ImGui_ImplGlfw_Shutdown,
    World.log, StateT.run, bind, StateT.bind]

/-- What `imgui_backend_newframe` leaves behind. -/
theorem newframe_run {σ : Type} (L : ImGuiLib σ) (s : World σ) :
    (imgui_backend_newframe L).run s =
      ((), { lib := L.ImGui_ImplOpenGL3_NewFrame (L.ImGui_ImplGlfw_NewFrame s.lib)
             trace := s.trace ++ [.ImGui_ImplGlfw_NewFrame, .ImGui_ImplOpenGL3_NewFrame] }) := by
  simp [imgui_backend_newframe, call_ImGui_ImplGlfw_NewFrame, call_ImGui_ImplOpenGL3_NewFrame,
    World.log, StateT.run, bind, StateT.bind]

/-- What `imgui_backend_render` leaves behind. -/
theorem render_run {σ : Type} (L : ImGuiLib σ) (s : World σ) :
    (imgui_backend_render L).run s =
      ((), { lib := L.ImGui_ImplOpenGL3_RenderDrawData (L.GetDrawData s.lib).1
                      (L.GetDrawData s.lib).2
             trace := s.trace ++ [.ImGui_GetDrawData,
                                  .ImGui_ImplOpenGL3_RenderDrawData (L.GetDrawData s.lib).1] }) := by
  simp [imgui_backend_render, call_ImGui_GetDrawData, call_ImGui_ImplOpenGL3_RenderDrawData,
    World.log, StateT.run, bind, StateT.bind]

/-- The calls `imgui_backend_init` issues. -/
theorem init_issued {σ : Type} (L : ImGuiLib σ) (w : Ptr) (s : World σ) :
    issued (imgui_backend_init L w) s =
      [.ImGui_ImplGlfw_InitForOpenGL w true, .ImGui_ImplOpenGL3_Init none] := by
  simp [issued, init_run]

/-- The calls `imgui_backend_deinit` issues. -/
theorem deinit_issued {σ : Type} (L : ImGuiLib σ) (s : World σ) :
    issued (imgui_backend_deinit L) s =
      [.ImGui_ImplOpenGL3_Shutdown, .ImGui_ImplGlfw_Shutdown] := by
  simp [issued, deinit_run]

/-- The calls `imgui_backend_newframe` issues. -/
theorem newframe_issued {σ : Type} (L : ImGuiLib σ) (s : World σ) :
    issued (imgui_backend_newframe L) s =
      [.ImGui_ImplGlfw_NewFrame, .ImGui_ImplOpenGL3_NewFrame] := by
  simp [issued, newframe_run]

/-- The calls `imgui_backend_render` issues. -/
theorem render_issued {σ : Type} (L : ImGuiLib σ) (s : World σ) :
    issued (imgui_backend_render L) s =
      [.ImGui_GetDrawData, .ImGui_ImplOpenGL3_RenderDrawData (L.GetDrawData s.lib).1] := by
  simp [issued, render_run]

/-- Running the empty sequence changes nothing. -/
theorem runCalls_nil_run {σ : Type} (L : ImGuiLib σ) (s : World σ) :
    (runCalls L []).run s = ((), s) := rfl

/-- Running a sequence is running its first call, then the rest. -/
theorem runCalls_cons_run {σ : Type} (L : ImGuiLib σ) (e : Entry) (es : List Entry)
    (s : World σ) :
    (runCalls L (e :: es)).run s = (runCalls L es).run ((callEntry L e).run s).2 := rfl

/-- Running a concatenation is running the parts one after the other. -/
theorem runCalls_append_run {σ : Type} (L : ImGuiLib σ) (es₁ es₂ : List Entry)
    (s : World σ) :
    (runCalls L (es₁ ++ es₂)).run s = (runCalls L es₂).run ((runCalls L es₁).run s).2 := by
  induction es₁ generalizing s with
  | nil => rfl
  | cons e es ih => simp only [List.cons_append, runCalls_cons_run, ih]

/-- Every entry point appends to the trace: earlier calls are kept as they
are, and the calls added have the entry point's fixed shape. -/
theorem callEntry_trace {σ : Type} (L : ImGuiLib σ) (e : Entry) (s : World σ) :
    ∃ t, ((callEntry L e).run s).2.trace = s.trace ++ t ∧ t.map LibCall.shape = fixedTrace e := by
  cases e with
  | init w =>
    exact ⟨[.ImGui_ImplGlfw_InitForOpenGL w true, .ImGui_ImplOpenGL3_Init none],
      by simp only [callEntry, init_run], rfl⟩
  | deinit =>
    exact ⟨[.ImGui_ImplOpenGL3_Shutdown, .ImGui_ImplGlfw_Shutdown],
      by simp only [callEntry, deinit_run], rfl⟩
  | newframe =>
    exact ⟨[.ImGui_ImplGlfw_NewFrame, .ImGui_ImplOpenGL3_NewFrame],
      by simp only [callEntry, newframe_run], rfl⟩
  | render =>
    exact ⟨[.ImGui_GetDrawData, .ImGui_ImplOpenGL3_RenderDrawData (L.GetDrawData s.lib).1],
      by simp only [callEntry, render_run], rfl⟩

/-- A sequence of calls appends to the trace the calls of its entry points,
one after the other. -/
theorem runCalls_trace {σ : Type} (L : ImGuiLib σ) (es : List Entry) (s : World σ) :
    ∃ t, ((runCalls L es).run s).2.trace = s.trace ++ t ∧
      t.map LibCall.shape = concatTraces es := by
  induction es generalizing s with
  | nil => exact ⟨[], by simp [runCalls_nil_run], rfl⟩
  | cons e es ih =>
    obtain ⟨t₁, h₁, hs₁⟩ := callEntry_trace L e s
    obtain ⟨t₂, h₂, hs₂⟩ := ih ((callEntry L e).run s).2
    refine ⟨t₁ ++ t₂, ?_, ?_⟩
    · rw [runCalls_cons_run, h₂, h₁, List.append_assoc]
    · simp [concatTraces, hs₁, hs₂]

/-- The trace after an action that only appends is the old trace followed by
the calls issued. -/
theorem issued_of_append {σ α : Type} (m : StateM (World σ) α) (s : World σ)
    (t : List LibCall) (h : (m.run s).2.trace = s.trace ++ t) : issued m s = t := by
  simp [issued, h]

/-! ## The entry points one by one -/

/-- C1: for every window handle `w`, library and starting world,
`imgui_backend_init(w)` leaves the earlier trace untouched and issues exactly
two library calls, `ImGui_ImplGlfw_InitForOpenGL(w, true)` and then
`ImGui_ImplOpenGL3_Init(NULL)`; the library ends in the state the OpenGL3 init
produces from the state the GLFW init produced; and the calls issued are the
same for every library and world, so `w` is the only input they depend on. -/
theorem imgui_backend_init_calls {σ : Type} (L : ImGuiLib σ) (w : Ptr) (s : World σ) :
    ((imgui_backend_init L w).run s).2.trace =
        s.trace ++ [.ImGui_ImplGlfw_InitForOpenGL w true, .ImGui_ImplOpenGL3_Init none] ∧
      issued (imgui_backend_init L w) s =
        [.ImGui_ImplGlfw_InitForOpenGL w true, .ImGui_ImplOpenGL3_Init none] ∧
      ((imgui_backend_init L w).run s).2.lib =
        (L.ImGui_ImplOpenGL3_Init none (L.ImGui_ImplGlfw_InitForOpenGL w true s.lib).2).2 ∧
      (∀ (τ : Type) (L' : ImGuiLib τ) (s' : World τ),
        issued (imgui_backend_init L' w) s' = issued (imgui_backend_init L w) s) := by
  refine ⟨by rw [init_run], init_issued L w s, by rw [init_run], ?_⟩
  intro τ L' s'
  rw [init_issued, init_issued]

/-- C3: `imgui_backend_render` makes one `GetDrawData` query and then one
`ImGui_ImplOpenGL3_RenderDrawData` call whose argument is exactly the pointer
the query returned on the library state at the time of the call (null
included); it issues no other call, in particular neither `ImGui::Render` nor
`ImGui::NewFrame`, and the renderer runs on the state the query left. -/
theorem imgui_backend_render_calls {σ : Type} (L : ImGuiLib σ) (s : World σ) :
    ((imgui_backend_render L).run s).2.trace =
        s.trace ++ [.ImGui_GetDrawData,
          .ImGui_ImplOpenGL3_RenderDrawData (L.GetDrawData s.lib).1] ∧
      issued (imgui_backend_render L) s =
        [.ImGui_GetDrawData, .ImGui_ImplOpenGL3_RenderDrawData (L.GetDrawData s.lib).1] ∧
      ((imgui_backend_render L).run s).2.lib =
        L.ImGui_ImplOpenGL3_RenderDrawData (L.GetDrawData s.lib).1 (L.GetDrawData s.lib).2 ∧
      LibCall.ImGui_Render ∉ issued (imgui_backend_render L) s ∧
      LibCall.ImGui_NewFrame ∉ issued (imgui_backend_render L) s := by
  refine ⟨by rw [render_run], render_issued L s, by rw [render_run], ?_, ?_⟩ <;>
    simp [render_issued]

/-- C6: `imgui_backend_deinit` issues exactly `ImGui_ImplOpenGL3_Shutdown`
then `ImGui_ImplGlfw_Shutdown`; the backends it visits are those of
`imgui_backend_init` in reverse order (init: GLFW, OpenGL3; deinit: OpenGL3,
GLFW); and init(w) followed by deinit issues GLFW init, OpenGL3 init, OpenGL3
shutdown, GLFW shutdown, properly nested. -/
theorem imgui_backend_deinit_reverses_init {σ : Type} (L : ImGuiLib σ) (w : Ptr)
    (s : World σ) :
    issued (imgui_backend_deinit L) s =
        [.ImGui_ImplOpenGL3_Shutdown, .ImGui_ImplGlfw_Shutdown] ∧
      (issued (imgui_backend_init L w) s).map LibCall.backend =
        [some .Glfw, some .OpenGL3] ∧
      (issued (imgui_backend_deinit L) s).map LibCall.backend =
        ((issued (imgui_backend_init L w) s).map LibCall.backend).reverse ∧
      issued (runCalls L [.init w, .deinit]) s =
        [.ImGui_ImplGlfw_InitForOpenGL w true, .ImGui_ImplOpenGL3_Init none,
          .ImGui_ImplOpenGL3_Shutdown, .ImGui_ImplGlfw_Shutdown] := by
  refine ⟨deinit_issued L s, ?_, ?_, ?_⟩
  · rw [init_issued]; rfl
  · rw [init_issued, deinit_issued]; rfl
  · apply issued_of_append
    simp [runCalls_cons_run, runCalls_nil_run, callEntry, init_run, deinit_run]

/-- C7: `imgui_backend_newframe` issues exactly two library calls,
`ImGui_ImplGlfw_NewFrame` first and `ImGui_ImplOpenGL3_NewFrame` second, in the
platform-then-renderer order of `imgui_backend_init`, and no other call; in
particular it does not call `ImGui::NewFrame`. -/
theorem imgui_backend_newframe_calls {σ : Type} (L : ImGuiLib σ) (w : Ptr) (s : World σ) :
    ((imgui_backend_newframe L).run s).2.trace =
        s.trace ++ [.ImGui_ImplGlfw_NewFrame, .ImGui_ImplOpenGL3_NewFrame] ∧
      issued (imgui_backend_newframe L) s =
        [.ImGui_ImplGlfw_NewFrame, .ImGui_ImplOpenGL3_NewFrame] ∧
      (issued (imgui_backend_newframe L) s).map LibCall.backend =
        (issued (imgui_backend_init L w) s).map LibCall.backend ∧
      ((imgui_backend_newframe L).run s).2.lib =
        L.ImGui_ImplOpenGL3_NewFrame (L.ImGui_ImplGlfw_NewFrame s.lib) ∧
      LibCall.ImGui_NewFrame ∉ issued (imgui_backend_newframe L) s := by
  refine ⟨by rw [newframe_run], newframe_issued L s, ?_, by rw [newframe_run], ?_⟩
  · rw [init_issued, newframe_issued]; rfl
  · simp [newframe_issued]

/-! ## Library failures -/

/-- C2 fails at a concrete input: with window handle `1`, the OpenGL3 init
reports failure in a world without a GL context and both inits report success
in a world with one, yet the caller of `imgui_backend_init` observes the same
result (the same return value and the same calls) in both. -/
theorem init_failure_not_propagated_counterexample :
    initResults demoLib 1 demoWorldNoGL = (true, false) ∧
      initResults demoLib 1 demoWorld = (true, true) ∧
      observed (imgui_backend_init demoLib 1) demoWorldNoGL =
        observed (imgui_backend_init demoLib 1) demoWorld := by
  decide

/-- C2 as amended: `imgui_backend_init` returns nothing and drops both `bool`
results.  For every window handle, whatever the two library calls report, the
caller observes the same result: the unit value and the two calls
`ImGui_ImplGlfw_InitForOpenGL(w, true)`, `ImGui_ImplOpenGL3_Init(NULL)`; the
second call is made whether or not the first succeeded. -/
theorem imgui_backend_init_drops_results {σ τ : Type} (L : ImGuiLib σ) (L' : ImGuiLib τ)
    (w : Ptr) (s : World σ) (s' : World τ) :
    observed (imgui_backend_init L w) s = observed (imgui_backend_init L' w) s' ∧
      observed (imgui_backend_init L w) s =
        ((), [.ImGui_ImplGlfw_InitForOpenGL w true, .ImGui_ImplOpenGL3_Init none]) := by
  simp [observed, init_issued]

/-! ## Sequences of calls -/

/-- Every fixed trace has two calls. -/
theorem concatTraces_length (es : List Entry) : (concatTraces es).length = 2 * es.length := by
  induction es with
  | nil => rfl
  | cons e es ih =>
    cases e <;> simp [concatTraces, fixedTrace, ih] <;> omega

/-- C4: the shim keeps no state and enforces no order.  For every finite
sequence of entry-point calls, from every world, the run keeps the earlier
trace and appends calls whose shapes are exactly the concatenation, in call
order, of the entry points' fixed traces; two library calls are issued per
entry-point call, so none is rejected or skipped; and the shape of what a
single call issues is its fixed trace whatever world it starts from. -/
theorem shim_trace_is_concatenation {σ : Type} (L : ImGuiLib σ) (es : List Entry)
    (s : World σ) :
    ((runCalls L es).run s).2.trace = s.trace ++ issued (runCalls L es) s ∧
      (issued (runCalls L es) s).map LibCall.shape = concatTraces es ∧
      (issued (runCalls L es) s).length = 2 * es.length ∧
      (∀ (e : Entry) (s' : World σ),
        (issued (callEntry L e) s').map LibCall.shape = fixedTrace e) := by
  obtain ⟨t, ht, hs⟩ := runCalls_trace L es s
  have hi : issued (runCalls L es) s = t := issued_of_append _ s t ht
  refine ⟨by rw [hi, ht], by rw [hi, hs], ?_, ?_⟩
  · have h := congrArg List.length hs
    rw [List.length_map, concatTraces_length] at h
    rw [hi, h]
  · intro e s'
    obtain ⟨t', ht', hs'⟩ := callEntry_trace L e s'
    rw [issued_of_append _ s' t' ht', hs']

/-! ## The assumed session `init → {newframe → render}* → deinit` -/

/-- The frames of a session append one frame block per frame. -/
theorem frames_trace {σ : Type} (L : ImGuiLib σ) (n : Nat) (s : World σ) :
    ∃ ds : List Ptr, ds.length = n ∧
      ((runCalls L (frames n)).run s).2.trace = s.trace ++ frameBlocks ds := by
  induction n generalizing s with
  | zero => exact ⟨[], rfl, by simp [frames, runCalls_nil_run, frameBlocks]⟩
  | succ n ih =>
    obtain ⟨ds, hlen, h⟩ :=
      ih ((imgui_backend_render L).run ((imgui_backend_newframe L).run s).2).2
    refine ⟨(L.GetDrawData ((imgui_backend_newframe L).run s).2.lib).1 :: ds, by simp [hlen], ?_⟩
    simp only [frames, runCalls_cons_run, callEntry]
    rw [h]
    simp [render_run, newframe_run, frameBlocks, frameBlock]

/-- A session issues the two inits, one frame block per frame, and the two
shutdowns. -/
theorem session_trace {σ : Type} (L : ImGuiLib σ) (w : Ptr) (n : Nat) (s : World σ) :
    ∃ ds : List Ptr, ds.length = n ∧ sessionCalls L w n s = sessionTrace w ds := by
  obtain ⟨ds, hlen, h⟩ := frames_trace L n ((imgui_backend_init L w).run s).2
  refine ⟨ds, hlen, ?_⟩
  apply issued_of_append
  simp only [session, runCalls_cons_run, runCalls_append_run, runCalls_nil_run, callEntry]
  rw [deinit_run, h]
  simp [init_run, sessionTrace]

/-- Length of the frame blocks. -/
theorem frameBlocks_length (ds : List Ptr) : (frameBlocks ds).length = 4 * ds.length := by
  induction ds with
  | nil => rfl
  | cons d ds ih => simp [frameBlocks, frameBlock, ih]; omega

/-- The calls of the frame blocks are neither inits nor shutdowns. -/
theorem frameBlocks_mem (ds : List Ptr) (c : LibCall) (h : c ∈ frameBlocks ds) :
    c.isBackendInit = false ∧ c.isShutdown = false := by
  induction ds with
  | nil => simp [frameBlocks] at h
  | cons d ds ih =>
    simp only [frameBlocks, frameBlock, List.mem_append, List.mem_cons,
      List.mem_singleton, List.not_mem_nil, or_false] at h
    rcases h with (h | h | h | h) | h
    · subst h; exact ⟨rfl, rfl⟩
    · subst h; exact ⟨rfl, rfl⟩
    · subst h; exact ⟨rfl, rfl⟩
    · subst h; exact ⟨rfl, rfl⟩
    · exact ih h

/-- One RenderDrawData call per frame block. -/
theorem frameBlocks_countP (ds : List Ptr) :
    (frameBlocks ds).countP LibCall.isRenderDrawData = ds.length := by
  induction ds with
  | nil => rfl
  | cons d ds ih =>
    simp [frameBlocks, frameBlock, List.countP_append, List.countP_cons, ih,
      LibCall.isRenderDrawData]

/-- A trace without RenderDrawData calls satisfies `RenderPreceded`. -/
theorem renderPreceded_of_none (t : List LibCall)
    (h : ∀ c ∈ t, c.isRenderDrawData = false) : RenderPreceded t := by
  intro pre d post ht
  have := h (LibCall.ImGui_ImplOpenGL3_RenderDrawData d) (by simp [ht])
  simp [LibCall.isRenderDrawData] at this

/-- `RenderPreceded` is kept by concatenation. -/
theorem renderPreceded_append (x y : List LibCall) (hx : RenderPreceded x)
    (hy : RenderPreceded y) : RenderPreceded (x ++ y) := by
  intro pre d post ht
  rcases List.append_eq_append_iff.mp ht with ⟨a, hpre, hy'⟩ | ⟨c, hx', hc⟩
  · obtain ⟨p, hp⟩ := hy a d post hy'
    exact ⟨x ++ p, by rw [hpre, hp, List.append_assoc]⟩
  · cases c with
    | nil =>
      simp only [List.nil_append] at hc
      obtain ⟨p, hp⟩ := hy [] d post (by simpa using hc.symm)
      simp at hp
    | cons e c =>
      simp only [List.cons_append, List.cons.injEq] at hc
      obtain ⟨he, -⟩ := hc
      subst he
      exact hx pre d c hx'

/-- One frame block satisfies `RenderPreceded`. -/
theorem renderPreceded_frameBlock (d : Ptr) : RenderPreceded (frameBlock d) := by
  intro pre d' post ht
  rcases pre with _ | ⟨a, _ | ⟨b, _ | ⟨c, _ | ⟨e, pre⟩⟩⟩⟩ <;>
    simp [frameBlock] at ht
  obtain ⟨ha, hb, hc, -⟩ := ht
  exact ⟨[], by simp [ha, hb, hc]⟩

/-- The frame blocks satisfy `RenderPreceded`. -/
theorem renderPreceded_frameBlocks (ds : List Ptr) : RenderPreceded (frameBlocks ds) := by
  induction ds with
  | nil => exact renderPreceded_of_none _ (by simp [frameBlocks])
  | cons d ds ih => exact renderPreceded_append _ _ (renderPreceded_frameBlock d) ih

/-- A whole session satisfies `RenderPreceded`. -/
theorem renderPreceded_sessionTrace (w : Ptr) (ds : List Ptr) :
    RenderPreceded (sessionTrace w ds) := by
  have h : sessionTrace w ds =
      [LibCall.ImGui_ImplGlfw_InitForOpenGL w true, LibCall.ImGui_ImplOpenGL3_Init none] ++
        (frameBlocks ds ++
          [LibCall.ImGui_ImplOpenGL3_Shutdown, LibCall.ImGui_ImplGlfw_Shutdown]) := rfl
  rw [h]
  refine renderPreceded_append _ _ (renderPreceded_of_none _ ?_)
    (renderPreceded_append _ _ (renderPreceded_frameBlocks ds) (renderPreceded_of_none _ ?_))
  · intro c hc
    simp at hc
    rcases hc with hc | hc <;> subst hc <;> rfl
  · intro c hc
    simp at hc
    rcases hc with hc | hc <;> subst hc <;> rfl

/-- Where the calls of a session sit, given the pointers its frames rendered. -/
theorem sessionTrace_layout (w : Ptr) (ds : List Ptr) :
    (sessionTrace w ds).length = 4 + 4 * ds.length ∧
      (sessionTrace w ds).take 2 =
        [LibCall.ImGui_ImplGlfw_InitForOpenGL w true, LibCall.ImGui_ImplOpenGL3_Init none] ∧
      (∀ c ∈ (sessionTrace w ds).drop 2, c.isBackendInit = false) ∧
      (sessionTrace w ds).drop (2 + 4 * ds.length) =
        [LibCall.ImGui_ImplOpenGL3_Shutdown, LibCall.ImGui_ImplGlfw_Shutdown] ∧
      (∀ c ∈ (sessionTrace w ds).take (2 + 4 * ds.length), c.isShutdown = false) := by
  have hlen := frameBlocks_length ds
  have hdrop : (sessionTrace w ds).drop (2 + 4 * ds.length) =
      [LibCall.ImGui_ImplOpenGL3_Shutdown, LibCall.ImGui_ImplGlfw_Shutdown] := by
    rw [Nat.add_comm]
    show List.drop (4 * ds.length) (frameBlocks ds ++ _) = _
    exact List.drop_left' hlen
  have htake : (sessionTrace w ds).take (2 + 4 * ds.length) =
      LibCall.ImGui_ImplGlfw_InitForOpenGL w true :: LibCall.ImGui_ImplOpenGL3_Init none ::
        frameBlocks ds := by
    rw [Nat.add_comm]
    show _ :: _ :: List.take (4 * ds.length) (frameBlocks ds ++ _) = _
    rw [List.take_left' hlen]
  refine ⟨?_, rfl, ?_, hdrop, ?_⟩
  · simp [sessionTrace, hlen]; omega
  · intro c hc
    have hc' : c ∈ frameBlocks ds ++
        [LibCall.ImGui_ImplOpenGL3_Shutdown, LibCall.ImGui_ImplGlfw_Shutdown] := hc
    rcases List.mem_append.mp hc' with h | h
    · exact (frameBlocks_mem ds c h).1
    · simp at h
      rcases h with h | h <;> subst h <;> rfl
  · intro c hc
    rw [htake] at hc
    simp only [List.mem_cons] at hc
    rcases hc with h | h | h
    · subst h; rfl
    · subst h; rfl
    · exact (frameBlocks_mem ds c h).2

/-- The frame calls of a session lie after both inits and before both
shutdowns. -/
theorem sessionTrace_frame_calls (w : Ptr) (ds : List Ptr) (i : Nat) (c : LibCall)
    (hi : (sessionTrace w ds)[i]? = some c)
    (hc : c.isBackendNewFrame = true ∨ c.isRenderDrawData = true) :
    2 ≤ i ∧ i < 2 + 4 * ds.length := by
  have hlen := frameBlocks_length ds
  match i, hi with
  | 0, hi =>
    simp [sessionTrace] at hi
    subst hi
    simp [LibCall.isBackendNewFrame, LibCall.isRenderDrawData] at hc
  | 1, hi =>
    simp [sessionTrace] at hi
    subst hi
    simp [LibCall.isBackendNewFrame, LibCall.isRenderDrawData] at hc
  | j + 2, hi =>
    refine ⟨by omega, ?_⟩
    by_contra hge
    have hj : (frameBlocks ds).length ≤ j := by omega
    have hi' : (frameBlocks ds ++
        [LibCall.ImGui_ImplOpenGL3_Shutdown, LibCall.ImGui_ImplGlfw_Shutdown])[j]? = some c := by
      simpa [sessionTrace] using hi
    rw [List.getElem?_append_right hj] at hi'
    have hmem := List.getElem?_mem hi'
    simp at hmem
    rcases hmem with h | h <;> subst h <;>
      simp [LibCall.isBackendNewFrame, LibCall.isRenderDrawData] at hc

/-- A session renders once per frame. -/
theorem sessionTrace_countP (w : Ptr) (ds : List Ptr) :
    (sessionTrace w ds).countP LibCall.isRenderDrawData = ds.length := by
  simp [sessionTrace, List.countP_cons, List.countP_append, frameBlocks_countP,
    LibCall.isRenderDrawData]

/-- C5: for every window handle `w`, every `n`, every library and starting
world, the calls issued by init(w), `n` times (newframe, render), deinit are
`4 + 4 * n` in number; the first two are the GLFW init and the OpenGL3 init and
no init occurs later; the last two are the OpenGL3 shutdown and the GLFW
shutdown and no shutdown occurs earlier; every backend NewFrame and every
RenderDrawData call sits after both inits and before both shutdowns; there are
exactly `n` RenderDrawData calls; and each of them comes right after a GLFW
NewFrame, an OpenGL3 NewFrame and the GetDrawData query, hence after both
NewFrame calls issued since the previous RenderDrawData. -/
theorem session_respects_lifecycle {σ : Type} (L : ImGuiLib σ) (w : Ptr) (n : Nat)
    (s : World σ) :
    (sessionCalls L w n s).length = 4 + 4 * n ∧
      (sessionCalls L w n s).take 2 =
        [LibCall.ImGui_ImplGlfw_InitForOpenGL w true, LibCall.ImGui_ImplOpenGL3_Init none] ∧
      (∀ c ∈ (sessionCalls L w n s).drop 2, c.isBackendInit = false) ∧
      (sessionCalls L w n s).drop (2 + 4 * n) =
        [LibCall.ImGui_ImplOpenGL3_Shutdown, LibCall.ImGui_ImplGlfw_Shutdown] ∧
      (∀ c ∈ (sessionCalls L w n s).take (2 + 4 * n), c.isShutdown = false) ∧
      (∀ (i : Nat) (c : LibCall), (sessionCalls L w n s)[i]? = some c →
        (c.isBackendNewFrame = true ∨ c.isRenderDrawData = true) →
        2 ≤ i ∧ i < 2 + 4 * n) ∧
      (sessionCalls L w n s).countP LibCall.isRenderDrawData = n ∧
      RenderPreceded (sessionCalls L w n s) := by
  obtain ⟨ds, hlen, h⟩ := session_trace L w n s
  subst hlen
  rw [h]
  obtain ⟨h₁, h₂, h₃, h₄, h₅⟩ := sessionTrace_layout w ds
  exact ⟨h₁, h₂, h₃, h₄, h₅, sessionTrace_frame_calls w ds, sessionTrace_countP w ds,
    renderPreceded_sessionTrace w ds⟩

/-- A two-frame session on the stand-in library, evaluated. -/
theorem demo_session_calls :
    sessionCalls demoLib 5 2 demoWorld =
      [.ImGui_ImplGlfw_InitForOpenGL 5 true, .ImGui_ImplOpenGL3_Init none,
        .ImGui_ImplGlfw_NewFrame, .ImGui_ImplOpenGL3_NewFrame, .ImGui_GetDrawData,
        .ImGui_ImplOpenGL3_RenderDrawData 64,
        .ImGui_ImplGlfw_NewFrame, .ImGui_ImplOpenGL3_NewFrame, .ImGui_GetDrawData,
        .ImGui_ImplOpenGL3_RenderDrawData 64,
        .ImGui_ImplOpenGL3_Shutdown, .ImGui_ImplGlfw_Shutdown] := by
  decide

/-- Calls out of the assumed order are run all the same: render, deinit and a
second init on the stand-in library, evaluated. -/
theorem demo_unordered_calls :
    issued (runCalls demoLib [.render, .deinit, .init 0, .init 0, .newframe]) demoWorldNoGL =
      [.ImGui_GetDrawData, .ImGui_ImplOpenGL3_RenderDrawData 64,
        .ImGui_ImplOpenGL3_Shutdown, .ImGui_ImplGlfw_Shutdown,
        .ImGui_ImplGlfw_InitForOpenGL 0 true, .ImGui_ImplOpenGL3_Init none,
        .ImGui_ImplGlfw_InitForOpenGL 0 true, .ImGui_ImplOpenGL3_Init none,
        .ImGui_ImplGlfw_NewFrame, .ImGui_ImplOpenGL3_NewFrame] := by
  decide

end Munleko
